import Mathlib

/-!
# Verification of the `aria` real-time subtitle pipeline core

Shallow embedding of the audio capture, voice-activity-detection (VAD) and
transcription-dispatch code of `src/realtime_subtitles`, together with proofs
of the specified properties.

Conventions of the embedding:
* audio samples are rational numbers (`ℚ`) standing for the `float32` values;
* numpy arrays are Lean `List`s;
* the Silero VAD model (an external black box, stateful) is abstracted as a
  probability oracle `probFn : List ℚ → ℚ` applied to each 512-sample window;
* Python exceptions are `Except` values; `None` is `Option.none`.
-/

namespace Aria

/-! ## Voice activity detector (`audio/vad.py`) -/

/-- Constructor parameters of `VoiceActivityDetector` (`vad.py` lines 23-39). -/
structure VADConfig where
  threshold : ℚ
  min_speech_duration_ms : ℕ
  min_silence_duration_ms : ℕ
deriving DecidableEq

/-- The default construction `VoiceActivityDetector()` (`vad.py` lines 23-27). -/
def VADConfig.default : VADConfig :=
  { threshold := 0.4, min_speech_duration_ms := 150, min_silence_duration_ms := 300 }

/-- Mutable state of `VoiceActivityDetector` (`vad.py` lines 41-47):
`_is_speech`, `_speech_ms`, `_silence_ms` and the residual sample buffer. -/
structure VADState where
  is_speech : Bool
  speech_ms : ℕ
  silence_ms : ℕ
  buffer : List ℚ
deriving DecidableEq

/-- The state set up by `__init__` (`vad.py` lines 42-47). -/
def VADState.init : VADState :=
  { is_speech := false, speech_ms := 0, silence_ms := 0, buffer := [] }

/-- `CHUNK_SIZE = 512` (`vad.py` line 21). -/
def CHUNK_SIZE : ℕ := 512

/-- `chunk_duration_ms = (512 / 16000) * 1000 = 32` (`vad.py` line 100). -/
def chunk_duration_ms : ℕ := 32

/-- The body of the `while` loop of `is_speech` for one 512-sample window,
given the probability `prob` the model returned for it
(`vad.py` lines 108-121).  The buffer field is untouched here; the caller
manages it. -/
def processChunk (cfg : VADConfig) (s : VADState) (prob : ℚ) : VADState :=
  if cfg.threshold ≤ prob then
    -- Speech detected
    let speech := s.speech_ms + chunk_duration_ms
    { s with
      speech_ms := speech
      silence_ms := 0
      is_speech := if cfg.min_speech_duration_ms ≤ speech then true else s.is_speech }
  else
    -- Silence detected
    let sil := s.silence_ms + chunk_duration_ms
    if cfg.min_silence_duration_ms ≤ sil then
      { s with silence_ms := sil, is_speech := false, speech_ms := 0 }
    else
      { s with silence_ms := sil }

/-- The `while len(self._buffer) >= self.CHUNK_SIZE` loop of `is_speech`
(`vad.py` lines 102-121): take the leading 512 samples off the buffer, ask the
model for their speech probability, and update the hysteresis counters. -/
def processBuffer (cfg : VADConfig) (probFn : List ℚ → ℚ) (s : VADState) : VADState :=
  if h : CHUNK_SIZE ≤ s.buffer.length then
    let chunk := s.buffer.take CHUNK_SIZE
    let rest := s.buffer.drop CHUNK_SIZE
    processBuffer cfg probFn
      { processChunk cfg s (probFn chunk) with buffer := rest }
  else
    s
termination_by s.buffer.length
decreasing_by
  simp only [List.length_drop]
  have hpos : 0 < CHUNK_SIZE := by decide
  omega

/-- `VoiceActivityDetector.is_speech` (`vad.py` lines 80-123): append the new
audio to the residual buffer, consume every complete 512-sample window, and
return the current speech state together with the new detector state. -/
def is_speech (cfg : VADConfig) (probFn : List ℚ → ℚ) (s : VADState)
    (audio : List ℚ) : Bool × VADState :=
  let s' := processBuffer cfg probFn { s with buffer := s.buffer ++ audio }
  (s'.is_speech, s')

/-- `VoiceActivityDetector.reset` (`vad.py` lines 125-132). -/
def VADState.reset (_s : VADState) : VADState :=
  { is_speech := false, speech_ms := 0, silence_ms := 0, buffer := [] }

/-- Feeding a sequence of per-window speech probabilities through the
hysteresis state machine, one 512-sample window at a time. -/
def feedProbs (cfg : VADConfig) (s : VADState) (ps : List ℚ) : VADState :=
  ps.foldl (processChunk cfg) s

/-! ## Audio capture (`audio/capture.py`) -/

/-- `AudioCapture.SAMPLE_RATE = 16000` (`capture.py` line 37). -/
def SAMPLE_RATE : ℕ := 16000

/-- `np.interp` at a single query point `x`, with the sample positions
`0, 1, ..., len - 1` as the x-coordinates and the samples as the
y-coordinates: linear interpolation between the two neighbouring samples,
clamped to the last sample beyond the right end. -/
def interpAt (audio : List ℚ) (x : ℚ) : ℚ :=
  let k := (⌊x⌋).toNat
  if k + 1 < audio.length then
    audio.getD k 0 + (x - k) * (audio.getD (k + 1) 0 - audio.getD k 0)
  else
    audio.getD (audio.length - 1) 0

/-- `np.linspace(0, stop, num)`: `num` evenly spaced points from 0 to `stop`
inclusive (a single point is placed at 0). -/
def linspace (stop : ℚ) (num : ℕ) : List ℚ :=
  if num = 1 then [0]
  else (List.range num).map (fun (i : ℕ) => (i : ℚ) * stop / ((num : ℚ) - 1))

/-- `AudioCapture._resample` (`capture.py` lines 73-86): identity when the
source rate already is the 16 kHz target; otherwise
`target_length = int(len(audio) / original_rate * SAMPLE_RATE)` (`int`
truncates, modelled by natural division) samples obtained by linear
interpolation at `np.linspace(0, len(audio) - 1, target_length)`. -/
def resample (audio : List ℚ) (original_rate : ℕ) : List ℚ :=
  if original_rate = SAMPLE_RATE then audio
  else
    let target_length := audio.length * SAMPLE_RATE / original_rate
    if target_length = 0 then []
    else (linspace ((audio.length : ℚ) - 1) target_length).map (interpAt audio)

/-- State of an `AudioCapture` object as far as `stop` observes and mutates
it (`capture.py` lines 41-47): the PyAudio handle, the open stream, the
running flag, the raw-bytes hand-off queue and the processing thread.
Handles are `Option Unit`: present or `None`. -/
structure AudioCaptureState where
  pyaudio : Option Unit
  stream : Option Unit
  is_running : Bool
  audio_queue : List (List ℚ)
  capture_thread : Option Unit
deriving DecidableEq

/-- `AudioCapture.stop` (`capture.py` lines 165-189): clear the running
flag; if a stream is open, stop, close and null it; if a processing thread
exists, join and null it; if the PyAudio handle exists, terminate and null
it; then drain the hand-off queue until empty. -/
def AudioCaptureState.stop (s : AudioCaptureState) : AudioCaptureState :=
  let s1 := { s with is_running := false }
  let s2 := if s1.stream.isSome then { s1 with stream := none } else s1
  let s3 := if s2.capture_thread.isSome then { s2 with capture_thread := none } else s2
  let s4 := if s3.pyaudio.isSome then { s3 with pyaudio := none } else s3
  { s4 with audio_queue := [] }

/-! ## Pipeline orchestrator (`pipeline.py`)

The transcription engine (`WhisperTranscriber.transcribe`) and the
translation engine (`translator.translate`) are external black boxes for the
pipeline; both may raise.  They are modelled as oracle functions returning
`Except`, a translation result being a Python value that may be `None` or a
string (possibly empty).  The single transcription worker thread is modelled
by the sequential recursion `transcriptionLoop` over the FIFO contents of
`_transcription_queue`: `queue.Queue` is first-in-first-out and
`_transcription_loop` is its sole consumer. -/

/-- `TranscriptionResult` as consumed by `_transcription_loop`
(`pipeline.py` lines 166-184). -/
structure TranscriptionResult where
  text : String
  language : String
  confidence : ℚ
deriving DecidableEq

/-- The `SubtitleEvent` dataclass (`pipeline.py` lines 28-37). -/
structure SubtitleEvent where
  text : String
  language : String
  confidence : ℚ
  timestamp : ℚ
  is_partial : Bool := false
  translated_text : Option String := none
  target_language : Option String := none
deriving DecidableEq

/-- Python truthiness of an optional string: `None` and the empty string are
falsy. -/
def pyTruthy : Option String → Bool
  | none => false
  | some t => !(t == "")

/-- Python `str.strip()`: remove leading and trailing whitespace. -/
def pyStrip (s : String) : String :=
  ⟨(((s.data.dropWhile Char.isWhitespace).reverse.dropWhile
      Char.isWhitespace).reverse)⟩

/-- The translation attempt of `_transcription_loop`
(`pipeline.py` lines 172-179): `translated = None`; when a translator is
configured, call it, an exception leaving `translated` at `None`; the call
itself may return a string (possibly empty) or `None`. -/
def tryTranslate (translator : Option (String → Except String (Option String)))
    (text : String) : Option String :=
  match translator with
  | none => none
  | some tr =>
      match tr text with
      | .error _ => none
      | .ok t => t

/-- The `try` body of one worker iteration after the duration check
(`pipeline.py` lines 164-189): call the transcription engine; on an
exception, or on whitespace-only text, deliver nothing; otherwise attempt
the translation best-effort and deliver a `SubtitleEvent` whose
`target_language` is `self.target_language if translated else None`. -/
def runSegment (transcribe : List ℚ → Except String TranscriptionResult)
    (translator : Option (String → Except String (Option String)))
    (target_language : String) (now : ℚ) (audio : List ℚ) :
    Option SubtitleEvent :=
  match transcribe audio with
  | .error _ => none
  | .ok result =>
      if pyStrip result.text = "" then none
      else
        let text := pyStrip result.text
        let translated := tryTranslate translator text
        some { text := text
               language := result.language
               confidence := result.confidence
               timestamp := now
               translated_text := translated
               target_language :=
                 if pyTruthy translated then some target_language else none }

/-- `_transcription_loop` (`pipeline.py` lines 151-191) consuming the FIFO
queue contents: segments shorter than 0.3 s of 16 kHz audio are skipped,
every other segment is handed to the transcription engine in order.  Returns
the segments actually passed to the engine (in call order) and the delivered
subtitle events (in delivery order). -/
def transcriptionLoop (transcribe : List ℚ → Except String TranscriptionResult)
    (translator : Option (String → Except String (Option String)))
    (target_language : String) (now : ℚ) :
    List (List ℚ) → List (List ℚ) × List SubtitleEvent
  | [] => ([], [])
  | audio :: rest =>
      if (audio.length : ℚ) / 16000 < 0.3 then
        transcriptionLoop transcribe translator target_language now rest
      else
        let r := transcriptionLoop transcribe translator target_language now rest
        (audio :: r.1,
          match runSegment transcribe translator target_language now audio with
          | some e => e :: r.2
          | none => r.2)

/-! ## Theorems -/

/-- After the window-consuming loop finishes, the residual buffer is always
strictly shorter than one window. -/
theorem processBuffer_length_lt (cfg : VADConfig) (probFn : List ℚ → ℚ)
    (s : VADState) : (processBuffer cfg probFn s).buffer.length < CHUNK_SIZE := by
  induction s using processBuffer.induct cfg probFn with
  | case1 s h _chunk _rest ih =>
    rw [processBuffer, dif_pos h]
    exact ih
  | case2 s h =>
    rw [processBuffer, dif_neg h]
    omega

/-- `processChunk` never reads nor writes the buffer field. -/
theorem processChunk_buffer_irrel (cfg : VADConfig) (s : VADState) (b : List ℚ)
    (p : ℚ) :
    processChunk cfg { s with buffer := b } p
      = { processChunk cfg s p with buffer := b } := by
  simp only [processChunk]
  split <;> [skip; split] <;> rfl

/-- `feedProbs` never reads nor writes the buffer field. -/
theorem feedProbs_buffer_irrel (cfg : VADConfig) (ps : List ℚ) :
    ∀ (s : VADState) (b : List ℚ),
      feedProbs cfg { s with buffer := b } ps
        = { feedProbs cfg s ps with buffer := b } := by
  induction ps with
  | nil => intro s b; rfl
  | cons p ps ih =>
    intro s b
    simp only [feedProbs, List.foldl_cons] at *
    rw [processChunk_buffer_irrel, ih]

/-- Bridge between the buffer-level loop of `is_speech` and the window-level
hysteresis machine: when the residual buffer holds exactly a concatenation of
complete 512-sample windows, the loop processes them in order, each through
`processChunk` with the model probability of that window. -/
theorem processBuffer_windows (cfg : VADConfig) (probFn : List ℚ → ℚ) :
    ∀ (ws : List (List ℚ)) (s : VADState),
      (∀ w ∈ ws, w.length = CHUNK_SIZE) → s.buffer = ws.flatten →
      processBuffer cfg probFn s
        = { feedProbs cfg s (ws.map probFn) with buffer := [] } := by
  intro ws
  induction ws with
  | nil =>
    intro s _ hb
    simp only [List.flatten_nil] at hb
    rw [processBuffer]
    rw [dif_neg (by simp [hb, CHUNK_SIZE])]
    cases s
    simp_all [feedProbs]
  | cons w ws ih =>
    intro s hlen hb
    have hw : w.length = CHUNK_SIZE := hlen w (List.mem_cons_self w ws)
    have hjoin : s.buffer = w ++ ws.flatten := by simpa using hb
    have hge : CHUNK_SIZE ≤ s.buffer.length := by
      rw [hjoin]; simp [hw]
    rw [processBuffer, dif_pos hge]
    have htake : s.buffer.take CHUNK_SIZE = w := by
      rw [hjoin, ← hw, List.take_left]
    have hdrop : s.buffer.drop CHUNK_SIZE = ws.flatten := by
      rw [hjoin, ← hw, List.drop_left]
    rw [htake, hdrop]
    rw [ih _ (fun x hx => hlen x (List.mem_cons_of_mem w hx)) rfl]
    have : feedProbs cfg { processChunk cfg s (probFn w) with buffer := ws.flatten }
        (ws.map probFn)
        = { feedProbs cfg (processChunk cfg s (probFn w)) (ws.map probFn) with
            buffer := ws.flatten } := feedProbs_buffer_irrel cfg _ _ _
    rw [this]
    simp [feedProbs]

/-- C3: after every call to `is_speech`, whatever the chunk sizes fed so far,
the residual buffer holds strictly fewer than 512 samples; `reset` empties the
buffer (re-establishing the invariant) and zeroes `speech_ms`, `silence_ms`
and the speech flag. -/
theorem vad_residual_buffer_invariant (cfg : VADConfig) (probFn : List ℚ → ℚ)
    (s : VADState) (audio : List ℚ) :
    ((is_speech cfg probFn s audio).2).buffer.length < CHUNK_SIZE ∧
    s.reset.buffer = [] ∧ s.reset.buffer.length < CHUNK_SIZE ∧
    s.reset.speech_ms = 0 ∧ s.reset.silence_ms = 0 ∧ s.reset.is_speech = false := by
  refine ⟨processBuffer_length_lt cfg probFn _, rfl, ?_, rfl, rfl, rfl⟩
  simp [VADState.reset, CHUNK_SIZE]

/-- The decimal literal 0.4 of the default threshold, in a form the kernel
can evaluate. -/
theorem VADConfig.default_eq :
    VADConfig.default = ⟨mkRat 2 5, 150, 300⟩ := by
  unfold VADConfig.default
  rw [show (0.4 : ℚ) = mkRat 2 5 by rw [Rat.mkRat_eq_div]; norm_num]

/-- The decimal literal 0.9 in a form the kernel can evaluate. -/
theorem ofScientific_nine_tenths : (0.9 : ℚ) = mkRat 9 10 := by
  rw [Rat.mkRat_eq_div]; norm_num

/-- The decimal literal 0.1 in a form the kernel can evaluate. -/
theorem ofScientific_one_tenth : (0.1 : ℚ) = mkRat 1 10 := by
  rw [Rat.mkRat_eq_div]; norm_num

/-- C1 counterexample: with the default parameters, four above-threshold
windows, one below-threshold window, then a single above-threshold window
already flip the state to SPEECH (at the 6th window), although the run of
uninterrupted above-threshold windows ending there spans only one window
(32 ms < 150 ms): the below-threshold window did NOT discard the
above-threshold credit accumulated before it, contrary to the claim. -/
theorem vad_uninterrupted_counterexample :
    (feedProbs .default .init [0.9, 0.9, 0.9, 0.9, 0.1, 0.9]).is_speech = true ∧
    (feedProbs .default .init [0.9, 0.9, 0.9, 0.9, 0.1]).is_speech = false ∧
    1 * chunk_duration_ms < VADConfig.default.min_speech_duration_ms := by
  simp only [ofScientific_nine_tenths, ofScientific_one_tenth, VADConfig.default_eq]
  decide

/-- C1 amended: from the SILENCE state, a window flips the state to SPEECH
exactly when it is above threshold and brings the cumulative counter
`speech_ms` (which below-threshold windows halt but do not clear until
`min_silence_duration_ms` of silence accumulates) up to
`min_speech_duration_ms`. -/
theorem vad_silence_to_speech_transition (cfg : VADConfig) (s : VADState)
    (p : ℚ) (h : s.is_speech = false) :
    (processChunk cfg s p).is_speech = true ↔
      (cfg.threshold ≤ p ∧
        cfg.min_speech_duration_ms ≤ s.speech_ms + chunk_duration_ms) := by
  simp only [processChunk]
  split
  · split <;> simp_all
  · split <;> simp_all

/-- Witness for `vad_silence_to_speech_transition` at the default
configuration, 128 ms of accumulated speech and probability 0.9. -/
theorem vad_silence_to_speech_transition_witness :
    (processChunk .default
      { is_speech := false, speech_ms := 128, silence_ms := 0, buffer := [] }
      0.9).is_speech = true :=
  (vad_silence_to_speech_transition .default
      { is_speech := false, speech_ms := 128, silence_ms := 0, buffer := [] }
      0.9 rfl).mpr ⟨by norm_num [VADConfig.default], by decide⟩

/-- C2: as long as accumulated silence stays below `min_silence_duration_ms`,
a below-threshold window leaves `speech_ms` exactly unchanged, while an
above-threshold window zeroes `silence_ms` and adds the 32 ms window duration
to `speech_ms`. -/
theorem vad_counter_updates (cfg : VADConfig) (s : VADState) (p q : ℚ)
    (hp : p < cfg.threshold)
    (hs : s.silence_ms + chunk_duration_ms < cfg.min_silence_duration_ms)
    (hq : cfg.threshold ≤ q) :
    (processChunk cfg s p).speech_ms = s.speech_ms ∧
    (processChunk cfg s q).silence_ms = 0 ∧
    (processChunk cfg s q).speech_ms = s.speech_ms + chunk_duration_ms := by
  refine ⟨?_, ?_, ?_⟩ <;> simp only [processChunk]
  · rw [if_neg (not_le.mpr hp), if_neg (not_le.mpr hs)]
  · rw [if_pos hq]
  · rw [if_pos hq]

/-- Witness for `vad_counter_updates` at the default configuration with
96 ms of speech credit, probabilities 0.1 (below) and 0.9 (above). -/
theorem vad_counter_updates_witness :
    (processChunk .default
      { is_speech := false, speech_ms := 96, silence_ms := 0, buffer := [] }
      0.1).speech_ms = 96 ∧
    (processChunk .default
      { is_speech := false, speech_ms := 96, silence_ms := 0, buffer := [] }
      0.9).silence_ms = 0 ∧
    (processChunk .default
      { is_speech := false, speech_ms := 96, silence_ms := 0, buffer := [] }
      0.9).speech_ms = 96 + chunk_duration_ms :=
  vad_counter_updates .default
    { is_speech := false, speech_ms := 96, silence_ms := 0, buffer := [] }
    0.1 0.9 (by norm_num [VADConfig.default]) (by decide)
    (by norm_num [VADConfig.default])

/-- C5: with the default parameters (threshold 0.4, 150 ms minimum speech,
300 ms minimum silence, 32 ms windows), from the initial state: five windows
at probability 0.9 flip the state to SPEECH exactly at the 5th window and not
before; four or fewer such windows followed by one window at probability 0.1
leave the state SILENCE; and from the SPEECH state so reached, ten windows at
probability 0.1 flip the state back to SILENCE exactly at the 10th window and
not before. -/
theorem vad_hysteresis_scenario :
    (feedProbs .default .init (List.replicate 5 0.9)).is_speech = true ∧
    (∀ k < 5, (feedProbs .default .init (List.replicate k 0.9)).is_speech = false) ∧
    (∀ k < 5,
      (feedProbs .default .init (List.replicate k 0.9 ++ [0.1])).is_speech = false) ∧
    (feedProbs .default .init
      (List.replicate 5 0.9 ++ List.replicate 10 0.1)).is_speech = false ∧
    (∀ j < 10,
      (feedProbs .default .init
        (List.replicate 5 0.9 ++ List.replicate j 0.1)).is_speech = true) := by
  simp only [ofScientific_nine_tenths, ofScientific_one_tenth, VADConfig.default_eq]
  decide

/-- `linspace` produces exactly `num` points. -/
theorem linspace_length (stop : ℚ) (num : ℕ) : (linspace stop num).length = num := by
  unfold linspace
  split
  · simp_all
  · rw [List.length_map, List.length_range]

/-- C4 counterexample: three samples at a 32000 Hz source rate resample to
`int(3 / 32000 * 16000) = int(1.5) = 1` sample, while the claimed formula
`round(duration_seconds * target_rate) = round(1.5) = 2` demands two: `int`
truncates, it does not round. -/
theorem resample_round_counterexample :
    (resample [1, 2, 3] 32000).length = 1 ∧
    round ((3 : ℚ) / 32000 * 16000) = 2 := by
  constructor
  · rfl
  · have h : (3 : ℚ) / 32000 * 16000 = 3 / 2 := by norm_num
    rw [h, round_eq]
    norm_num

/-- C4 amended: for every non-empty audio array, `resample` is the identity
when the source rate equals the 16000 Hz target rate, and otherwise its
output length is `⌊input_length * target_rate / source_rate⌋` (truncated,
not rounded). -/
theorem resample_length (audio : List ℚ) (original_rate : ℕ)
    (hne : audio ≠ []) :
    (original_rate = SAMPLE_RATE → resample audio original_rate = audio) ∧
    (original_rate ≠ SAMPLE_RATE →
      (resample audio original_rate).length
        = audio.length * SAMPLE_RATE / original_rate) := by
  constructor
  · intro h
    simp [resample, h]
  · intro h
    simp only [resample, if_neg h]
    split
    · simp_all
    · simp [linspace_length]

/-- Witness for `resample_length`: a two-sample array at the matching rate
and at a 32000 Hz rate. -/
theorem resample_length_witness :
    (16000 = SAMPLE_RATE → resample [5, 7] 16000 = [5, 7]) ∧
    (32000 ≠ SAMPLE_RATE →
      (resample [5, 7] 32000).length = 2 * SAMPLE_RATE / 32000) :=
  ⟨(resample_length [5, 7] 16000 (by simp)).1,
   fun h => by
    have := (resample_length [5, 7] 32000 (by simp)).2 h
    simpa using this⟩

/-- C9: after one `stop` the stream, thread and PyAudio handles are `None`,
the running flag is cleared and the hand-off queue is empty, so a second
`stop` performs no further state change: `stop` is idempotent. -/
theorem stop_idempotent (s : AudioCaptureState) :
    s.stop.stop = s.stop ∧
    s.stop.stream = none ∧ s.stop.capture_thread = none ∧
    s.stop.pyaudio = none ∧ s.stop.is_running = false ∧
    s.stop.audio_queue = [] := by
  rcases s with ⟨p, st, r, q, t⟩
  cases p <;> cases st <;> cases t <;>
    simp [AudioCaptureState.stop]

/-- The worker's duration test `len(audio) / 16000 < 0.3` holds exactly for
segments of fewer than 4800 samples. -/
theorem duration_lt_iff (n : ℕ) : (n : ℚ) / 16000 < 0.3 ↔ n < 4800 := by
  rw [div_lt_iff₀ (by norm_num : (0 : ℚ) < 16000)]
  rw [show (0.3 : ℚ) * 16000 = (4800 : ℕ) by norm_num]
  exact_mod_cast Nat.cast_lt

/-- C6: the single worker consumes the queued segments in first-in-first-out
order: the segments handed to the transcription engine are exactly the queued
segments that pass the 0.3 s duration filter, in their queueing order, and
the delivered events arise one at a time from those segments in that same
order (the worker is sequential, so no two segments are ever in transcription
at once and none is reordered or skipped for any other reason). -/
theorem transcription_fifo (transcribe : List ℚ → Except String TranscriptionResult)
    (translator : Option (String → Except String (Option String)))
    (tgt : String) (now : ℚ) (segs : List (List ℚ)) :
    (transcriptionLoop transcribe translator tgt now segs).1
      = segs.filter (fun audio => !decide ((audio.length : ℚ) / 16000 < 0.3)) ∧
    (transcriptionLoop transcribe translator tgt now segs).2
      = segs.filterMap (fun audio =>
          if (audio.length : ℚ) / 16000 < 0.3 then none
          else runSegment transcribe translator tgt now audio) := by
  induction segs with
  | nil => exact ⟨rfl, rfl⟩
  | cons a rest ih =>
    by_cases h : (a.length : ℚ) / 16000 < 0.3
    · simp only [transcriptionLoop, if_pos h, List.filter_cons, List.filterMap_cons,
        decide_eq_true h, Bool.not_true, ih.1, ih.2]
      simp
    · cases hr : runSegment transcribe translator tgt now a <;>
        simp only [transcriptionLoop, if_neg h, hr, List.filter_cons,
          List.filterMap_cons, decide_eq_false h, Bool.not_false, ih.1, ih.2] <;>
        simp

/-- C7: a dequeued segment of fewer than 4800 samples (under 0.3 s at
16 kHz, zero-length included) triggers neither a transcription-engine call
nor any subtitle event; the worker simply moves on to the rest of the
queue. -/
theorem short_segment_skipped
    (transcribe : List ℚ → Except String TranscriptionResult)
    (translator : Option (String → Except String (Option String)))
    (tgt : String) (now : ℚ) (audio : List ℚ) (rest : List (List ℚ))
    (h : audio.length < 4800) :
    transcriptionLoop transcribe translator tgt now (audio :: rest)
      = transcriptionLoop transcribe translator tgt now rest := by
  have hd : (audio.length : ℚ) / 16000 < 0.3 := (duration_lt_iff _).mpr h
  simp [transcriptionLoop, hd]

/-- Witness for `short_segment_skipped`: a zero-length segment in front of an
empty queue, with an engine that would fail if it were ever called. -/
theorem short_segment_skipped_witness :
    transcriptionLoop (fun _ => Except.error "boom") none "zh" 0 [[]]
      = transcriptionLoop (fun _ => Except.error "boom") none "zh" 0 [] :=
  short_segment_skipped (fun _ => Except.error "boom") none "zh" 0 [] []
    (by decide)

/-- C8: for a dequeued segment of at least 0.3 s, (a) an exception from the
transcription engine yields no event and the worker continues with the rest
of the queue (the segment still counts as handed to the engine), and (b) if
transcription yields non-empty text and the configured translator raises, a
subtitle event is still delivered carrying the transcribed text with
`translated_text = None` (and hence `target_language = None`): a translation
failure never suppresses the subtitle. -/
theorem worker_failure_isolation
    (transcribe : List ℚ → Except String TranscriptionResult)
    (translator : Option (String → Except String (Option String)))
    (tgt : String) (now : ℚ) (audio : List ℚ) (rest : List (List ℚ))
    (hlen : 4800 ≤ audio.length) :
    (∀ err, transcribe audio = .error err →
      transcriptionLoop transcribe translator tgt now (audio :: rest)
        = (audio :: (transcriptionLoop transcribe translator tgt now rest).1,
           (transcriptionLoop transcribe translator tgt now rest).2)) ∧
    (∀ res tf terr, transcribe audio = .ok res → pyStrip res.text ≠ "" →
      translator = some tf → tf (pyStrip res.text) = .error terr →
      runSegment transcribe translator tgt now audio
        = some { text := pyStrip res.text, language := res.language,
                 confidence := res.confidence, timestamp := now,
                 translated_text := none, target_language := none }) := by
  have hd : ¬ ((audio.length : ℚ) / 16000 < 0.3) := by
    rw [duration_lt_iff]; omega
  constructor
  · intro err herr
    simp only [transcriptionLoop, if_neg hd, runSegment, herr]
  · intro res tf terr hok htext htr hterr
    simp only [runSegment, hok, htr, hterr, if_neg htext, tryTranslate, pyTruthy]
    rfl

/-- Witness for `worker_failure_isolation`: a 4800-sample segment with a
failing engine for part (a), and with a succeeding engine but failing
translator for part (b). -/
theorem worker_failure_isolation_witness :
    transcriptionLoop (fun _ => Except.error "boom") none "zh" 0
        [List.replicate 4800 0]
      = ([List.replicate 4800 0], []) ∧
    runSegment (fun _ => Except.ok ⟨"hi", "en", 1⟩)
        (some fun _ => Except.error "tfail") "zh" 0 (List.replicate 4800 0)
      = some { text := pyStrip "hi", language := "en", confidence := 1,
               timestamp := 0, translated_text := none,
               target_language := none } := by
  constructor
  · have h := (worker_failure_isolation (fun _ => Except.error "boom") none
      "zh" 0 (List.replicate 4800 0) [] (by rw [List.length_replicate])).1
      "boom" rfl
    simpa only [transcriptionLoop] using h
  · exact (worker_failure_isolation (fun _ => Except.ok ⟨"hi", "en", 1⟩)
      (some fun _ => Except.error "tfail") "zh" 0 (List.replicate 4800 0) []
      (by rw [List.length_replicate])).2 ⟨"hi", "en", 1⟩
      (fun _ => Except.error "tfail") "tfail" rfl (by decide) rfl rfl

/-- C10 counterexample: when the translator returns the empty string, the
delivered event carries `translated_text = some ""` (not `None`) while
`target_language = None` — `translated_text` is non-`None` although
`target_language` is `None`, contradicting both the claimed equivalence and
the claimed handling of an empty translation result. -/
theorem translation_empty_counterexample :
    runSegment (fun _ => Except.ok ⟨"hello", "en", 1⟩)
        (some fun _ => Except.ok (some "")) "zh" 0 (List.replicate 4800 0)
      = some { text := "hello", language := "en", confidence := 1,
               timestamp := 0, translated_text := some "",
               target_language := none } := by
  rfl

/-- C10 amended: in every delivered event, `target_language` is the
configured target language when `translated_text` is a non-empty string and
`None` otherwise (in particular it is `None` when the translation is absent,
failed, returned `None`, or returned the empty string — in the last case
`translated_text` is the empty string, not `None`); with no translator
configured, `translated_text` is `None`. -/
theorem event_target_language
    (transcribe : List ℚ → Except String TranscriptionResult)
    (translator : Option (String → Except String (Option String)))
    (tgt : String) (now : ℚ) (audio : List ℚ) (ev : SubtitleEvent)
    (h : runSegment transcribe translator tgt now audio = some ev) :
    ev.target_language
      = (if pyTruthy ev.translated_text then some tgt else none) ∧
    (translator = none → ev.translated_text = none) := by
  unfold runSegment at h
  cases hok : transcribe audio with
  | error e => rw [hok] at h; cases h
  | ok res =>
    rw [hok] at h
    simp only at h
    by_cases ht : pyStrip res.text = ""
    · rw [if_pos ht] at h; cases h
    · rw [if_neg ht] at h
      have hev := (Option.some.injEq _ _).mp h
      subst hev
      exact ⟨rfl, fun htr => by simp [tryTranslate, htr]⟩

/-- Witness for `event_target_language`: no translator configured, engine
returning the text `hi`. -/
theorem event_target_language_witness :
    ({ text := "hi", language := "en", confidence := 1, timestamp := 0,
       translated_text := none,
       target_language := none } : SubtitleEvent).target_language
      = (if pyTruthy (none : Option String) then some "zh" else none) ∧
    ((none : Option (String → Except String (Option String))) = none →
      ({ text := "hi", language := "en", confidence := 1, timestamp := 0,
         translated_text := none,
         target_language := none } : SubtitleEvent).translated_text = none) :=
  event_target_language (fun _ => Except.ok ⟨"hi", "en", 1⟩) none "zh" 0
    [] _ (by rfl)

end Aria
